import Mathlib

/-!
Verification of the cotainr builder CLI (`builder/cli.py`): a shallow
embedding of the docstring help extractor, the `Build` and `Info`
subcommands, and the `BuilderCLI` dispatcher, together with theorems about
their specified behavior.
-/

/-! ## Python string primitives -/

/-- The characters Python's `str.strip()` / `str.lstrip()` remove:
space, tab, newline, carriage return, vertical tab, form feed. -/
def pyIsSpace (c : Char) : Bool :=
  c == ' ' || c == '\t' || c == '\n' || c == '\r' || c == '\x0b' || c == '\x0c'

/-- Python `str.lstrip()` with no argument: drop leading whitespace. -/
def pyLstrip (s : String) : String :=
  ⟨s.data.dropWhile pyIsSpace⟩

/-- Python `str.strip()` with no argument: drop leading and trailing whitespace. -/
def pyStrip (s : String) : String :=
  ⟨((s.data.dropWhile pyIsSpace).reverse.dropWhile pyIsSpace).reverse⟩

/-- Python `str.lower()` (modelled with `Char.toLower`). -/
def pyLower (s : String) : String :=
  ⟨s.data.map Char.toLower⟩

/-- Python `str.rstrip(".")`: drop trailing `.` characters. -/
def pyRstripDots (s : String) : String :=
  ⟨(s.data.reverse.dropWhile (· == '.')).reverse⟩

/-- Python's substring containment test `pat in s`. -/
def strContains (pat s : String) : Bool :=
  s.data.tails.any (fun t => pat.data.isPrefixOf t)

/-- A character that terminates a line for Python's `str.splitlines()`
(`\r\n` is additionally treated as a single boundary below). -/
def pyIsLineBoundary (c : Char) : Bool :=
  c == '\n' || c == '\r' || c == '\x0b' || c == '\x0c' ||
  c == '\x1c' || c == '\x1d' || c == '\x1e' || c == '\x85' ||
  c == '\u2028' || c == '\u2029'

/-- Worker for `pySplitlines`: `acc` holds the current line reversed. -/
def pySplitlinesAux : List Char → List Char → List String
  | [], acc => if acc.isEmpty then [] else [⟨acc.reverse⟩]
  | '\r' :: '\n' :: rest, acc => (⟨acc.reverse⟩ : String) :: pySplitlinesAux rest []
  | c :: rest, acc =>
    if pyIsLineBoundary c then (⟨acc.reverse⟩ : String) :: pySplitlinesAux rest []
    else pySplitlinesAux rest (c :: acc)

/-- Python `str.splitlines()`. -/
def pySplitlines (s : String) : List String :=
  pySplitlinesAux s.data []

/-! ## The help extractor (`_extract_help_from_docstring`)

The Python function scans the docstring's lines with a flag `arg_found`
and an accumulator `arg_desc`; inside the loop it returns
`"".join(arg_desc).lstrip().lower().rstrip(".")` once a terminating line
is reached, and the `for`/`else` clause raises
`KeyError(f"The docstring does not include {arg=}")` whenever the loop
runs to completion without returning. -/

/-- The line scan of `_extract_help_from_docstring`: the remaining lines,
the `arg_found` flag, and the accumulated `arg_desc` pieces. -/
def extractScan (arg : String) : List String → Bool → List String → Except String String
  | [], _, _ => .error ("The docstring does not include arg=" ++ arg)
  | line :: rest, true, acc =>
    if strContains " : " line || pyStrip line == "" then
      .ok (pyRstripDots (pyLower (pyLstrip (String.join acc))))
    else
      extractScan arg rest true (acc ++ [line, " "])
  | line :: rest, false, acc =>
    if strContains (arg ++ " : ") line then extractScan arg rest true acc
    else extractScan arg rest false acc

/-- `_extract_help_from_docstring(arg, docstring)`: `.ok` is a returned
help string, `.error` is the `KeyError` message. -/
def extract_help_from_docstring (arg docstring : String) : Except String String :=
  extractScan arg (pySplitlines docstring) false []

/-- The `arg_desc` pieces accumulated for description lines `desc`:
each line followed by a single-space entry, as by
`arg_desc.extend([line, " "])`. -/
def descPieces (desc : List String) : List String :=
  desc.flatMap (fun l => [l, " "])

/-- The help text the C1 claim describes (following the claim's words, not
the code): description lines concatenated with single-space separators,
leading whitespace stripped, lower-cased, trailing period removed. -/
def c1ClaimedHelp (descLines : List String) : String :=
  pyRstripDots (pyLower (pyLstrip (String.intercalate " " descLines)))

/-! ## Paths and the `Build` subcommand -/

/-- A `pathlib.Path`: whether it is anchored at the filesystem root, and
its parts. -/
structure PyPath where
  anchored : Bool
  parts : List String
deriving DecidableEq

/-- `Path.absolute()`: a path that is already absolute is returned
unchanged; a relative path is prefixed with the (absolute) current
working directory `cwd`. -/
def PyPath.absolute (cwd : List String) (p : PyPath) : PyPath :=
  if p.anchored then p else ⟨true, cwd ++ p.parts⟩

/-- `Path.as_posix()`. -/
def PyPath.as_posix (p : PyPath) : String :=
  (if p.anchored then "/" else "") ++ String.intercalate "/" p.parts

/-- Python exception classes raised by the modelled code. -/
inductive PyError where
  | attributeError
deriving DecidableEq

/-- The state of a constructed `Build` subcommand object. -/
structure Build where
  image_path : PyPath
  base_image : Option String
  conda_env : Option PyPath
deriving DecidableEq

/-- `Build.__init__(*, image_path=None, base_image=None, conda_env=None)`:
`image_path.absolute()` is taken unconditionally, so `image_path=None`
raises `AttributeError` (`None` has no attribute `absolute`);
`base_image` is stored unchanged; `conda_env.absolute()` is stored when
`conda_env is not None`, else `None`. `cwd` is the process working
directory used by `Path.absolute()`. -/
def Build.init (cwd : List String) (image_path : Option PyPath)
    (base_image : Option String) (conda_env : Option PyPath) :
    Except PyError Build :=
  match image_path with
  | none => .error .attributeError
  | some ip =>
    .ok { image_path := ip.absolute cwd
          base_image := base_image
          conda_env := conda_env.map (PyPath.absolute cwd) }

/-- The calls `Build.execute()` makes, in the order they can raise. -/
inductive BuildStep where
  | createSandbox
  | condaInstallInit
  | condaEnvCreate
  | addBootstrapToEnv
  | addActivateToEnv
  | cleanupUnusedFiles
  | buildImage
deriving DecidableEq

/-- An observable call made during `Build.execute()`. -/
inductive Event where
  | createSandbox (baseImage : Option String)
  | runCommand (cmd : String)
  | addToEnv (line : String)
  | cleanupUnusedFiles
  | buildImage (imagePath : PyPath)
  | releaseSandbox
deriving DecidableEq

/-- The outcome of `Build.execute()`: the trace of calls made, and the
step whose exception aborted execution, if any. -/
structure ExecResult where
  trace : List Event
  raised : Option BuildStep
deriving DecidableEq

/-- The conda environment name used by `Build.execute()`. -/
def condaEnvName : String := "conda_container_env"

/-- The body of the `with container.Sandbox(...)` block in
`Build.execute()`: the events emitted and the raising step, if any. A
step that raises emits no event and skips the rest of the body.
`bootstrapScript` stands for the value of
`conda_install.conda_runtime_bootstrap_script` (supplied by the external
`pack` collaborator), and `raises` says which external calls raise. -/
def Build.executeBody (b : Build) (bootstrapScript : String)
    (raises : BuildStep → Bool) : List Event × Option BuildStep :=
  match b.conda_env with
  | some env =>
    if raises .condaInstallInit then ([], some .condaInstallInit)
    else
      let cmd := "conda env create -f " ++ env.as_posix ++ " -n " ++ condaEnvName
      if raises .condaEnvCreate then ([], some .condaEnvCreate)
      else if raises .addBootstrapToEnv then
        ([.runCommand cmd], some .addBootstrapToEnv)
      else if raises .addActivateToEnv then
        ([.runCommand cmd, .addToEnv bootstrapScript], some .addActivateToEnv)
      else if raises .cleanupUnusedFiles then
        ([.runCommand cmd, .addToEnv bootstrapScript,
          .addToEnv ("conda activate " ++ condaEnvName)], some .cleanupUnusedFiles)
      else if raises .buildImage then
        ([.runCommand cmd, .addToEnv bootstrapScript,
          .addToEnv ("conda activate " ++ condaEnvName), .cleanupUnusedFiles],
         some .buildImage)
      else
        ([.runCommand cmd, .addToEnv bootstrapScript,
          .addToEnv ("conda activate " ++ condaEnvName), .cleanupUnusedFiles,
          .buildImage b.image_path], none)
  | none =>
    if raises .buildImage then ([], some .buildImage)
    else ([.buildImage b.image_path], none)

/-- `Build.execute()`: enter `with container.Sandbox(self.base_image) as
sandbox`, run the body, and — by the `with` statement's guarantee —
release the sandbox on every exit path once it was acquired. If sandbox
acquisition itself raises, nothing else runs. -/
def Build.execute (b : Build) (bootstrapScript : String)
    (raises : BuildStep → Bool) : ExecResult :=
  if raises .createSandbox then ⟨[], some .createSandbox⟩
  else
    let body := b.executeBody bootstrapScript raises
    ⟨Event.createSandbox b.base_image :: body.1 ++ [.releaseSandbox], body.2⟩

/-! ## The `Info` subcommand -/

/-- The `Info` subcommand object (it has no state). -/
structure Info where
deriving DecidableEq

/-- `Info.execute()`: the lines printed to standard output. -/
def Info.execute (_ : Info) : List String :=
  ["Sorry, no information about your system is available at this time."]

/-! ## The `BuilderCLI` dispatcher

`BuilderCLI.__init__` parses the process arguments with `argparse` and
then runs `self.args.subcommand_cls(**subcommand_args)` inside
`try`/`except AttributeError`; when no subcommand token was given the
namespace has no `subcommand_cls` attribute, the `AttributeError` is
caught, and a `NoSubcommand` handler whose `execute()` prints the
top-level help is substituted. -/

/-- The process outcome of a CLI invocation: the lines printed to
standard output and the exit code. -/
structure CLIOutcome where
  output : List String
  exitCode : Nat
deriving DecidableEq

/-- The modelled invocations of the dispatcher. -/
inductive Invocation where
  | noArgs
  | helpFlag
  | infoCmd
deriving DecidableEq

/-- A subcommand selected by the parser. -/
inductive SubcommandSel where
  | infoSel
deriving DecidableEq

/-- Modelled from `argparse` semantics for the `BuilderCLI` parser: with
no tokens, `parse_args` succeeds with no `subcommand_cls` attribute set
(`none`); with `--help`, `argparse` prints the top-level help text and
exits with code 0 before returning; with `info`, it selects the `Info`
subcommand. `helpText` stands for the lines of `parser.print_help()` /
`parser.format_help()`. -/
def parseArgsModel (helpText : List String) :
    Invocation → Except CLIOutcome (Option SubcommandSel)
  | .noArgs => .ok none
  | .helpFlag => .error ⟨helpText, 0⟩
  | .infoCmd => .ok (some .infoSel)

/-- A full CLI run, `BuilderCLI()` then `cli.subcommand.execute()`: on a
parse-time exit the process ends there; otherwise the
`try`/`except AttributeError` of `BuilderCLI.__init__` picks the
subcommand — the `NoSubcommand` fallback printing `parser.print_help()`
when `subcommand_cls` is absent — and its `execute()` runs, the process
exiting 0. -/
def builderCLIMain (helpText : List String) (inv : Invocation) : CLIOutcome :=
  match parseArgsModel helpText inv with
  | .error out => out
  | .ok none => ⟨helpText, 0⟩
  | .ok (some .infoSel) => ⟨Info.execute ⟨⟩, 0⟩



/-! ## General lemmas -/

deriving instance DecidableEq for Except

theorem isPrefixOf_self {α} [BEq α] [LawfulBEq α] (l : List α) :
    l.isPrefixOf l = true := by
  induction l with
  | nil => rfl
  | cons a as ih => simp [List.isPrefixOf, ih]

theorem strContains_self (s : String) : strContains s s = true := by
  unfold strContains
  rw [List.any_eq_true]
  exact ⟨s.data, (List.mem_tails _ _).2 (List.suffix_refl _), isPrefixOf_self _⟩

/-- While `arg_found` is false, lines not containing the pattern
`arg ++ " : "` are skipped without any other effect. -/
theorem extractScan_skip (arg : String) (before rest acc : List String)
    (h : ∀ l ∈ before, strContains (arg ++ " : ") l = false) :
    extractScan arg (before ++ rest) false acc = extractScan arg rest false acc := by
  induction before with
  | nil => rfl
  | cons l ls ih =>
    have hl : strContains (arg ++ " : ") l = false := h l (by simp)
    have hls : ∀ x ∈ ls, strContains (arg ++ " : ") x = false :=
      fun x hx => h x (by simp [hx])
    rw [List.cons_append]
    simp only [extractScan, hl, Bool.false_eq_true, if_false]
    exact ih hls

/-- While `arg_found` is true, non-terminating lines are accumulated into
`arg_desc` each followed by a single space, and the first terminating
line returns the processed accumulated text. -/
theorem extractScan_collect (arg term : String) (desc after acc : List String)
    (hdesc : ∀ l ∈ desc, strContains " : " l = false ∧ pyStrip l ≠ "")
    (hterm : strContains " : " term = true ∨ pyStrip term = "") :
    extractScan arg (desc ++ term :: after) true acc =
      .ok (pyRstripDots (pyLower (pyLstrip (String.join (acc ++ descPieces desc))))) := by
  induction desc generalizing acc with
  | nil =>
    have hc : (strContains " : " term || pyStrip term == "") = true := by
      rcases hterm with h | h
      · simp [h]
      · simp [h]
    simp only [List.nil_append, extractScan, hc, if_true, descPieces,
      List.flatMap_nil, List.append_nil]
  | cons d ds ih =>
    obtain ⟨h1, h2⟩ := hdesc d (by simp)
    have hds : ∀ l ∈ ds, strContains " : " l = false ∧ pyStrip l ≠ "" :=
      fun l hl => hdesc l (by simp [hl])
    have hc : (strContains " : " d || pyStrip d == "") = false := by
      simp [h1, h2]
    rw [List.cons_append]
    simp only [extractScan, hc, Bool.false_eq_true, if_false]
    rw [ih _ hds]
    simp [descPieces, List.flatMap_cons, List.append_assoc]

/-! ## Claim theorems -/

/-- C3: for every docstring and parameter name such that no line of the
docstring contains the literal pattern `arg ++ " : "`, the extractor
raises a `KeyError` naming the missing parameter and never returns a
value. -/
theorem extract_help_missing_arg_error (arg docstring : String)
    (h : ∀ l ∈ pySplitlines docstring, strContains (arg ++ " : ") l = false) :
    extract_help_from_docstring arg docstring =
      .error ("The docstring does not include arg=" ++ arg) := by
  unfold extract_help_from_docstring
  have := extractScan_skip arg (pySplitlines docstring) [] [] h
  simpa using this

/-- Witness for C3 at a concrete docstring not containing `"y : "`. -/
theorem extract_help_missing_arg_error_witness :
    extract_help_from_docstring "y" "x : int\n  desc.\n" =
      .error "The docstring does not include arg=y" :=
  extract_help_missing_arg_error "y" "x : int\n  desc.\n" (by decide)

/-- C9: the extractor does no partial or fuzzy matching: while scanning
for the parameter, lines are skipped exactly as long as they do not
contain the literal substring `arg ++ " : "`, and the scan switches to
collecting the description at a line exactly when that line contains the
literal substring. -/
theorem extract_help_literal_match (arg m : String) (before rest : List String)
    (h : ∀ l ∈ before, strContains (arg ++ " : ") l = false) :
    extractScan arg (before ++ m :: rest) false [] =
      if strContains (arg ++ " : ") m then extractScan arg rest true []
      else extractScan arg rest false [] := by
  rw [extractScan_skip arg before (m :: rest) [] h]
  by_cases hm : strContains (arg ++ " : ") m <;> simp [extractScan, hm]

/-- Witness for C9: a near-miss line `"x :int"` (no literal `"x : "`) is
skipped, and the literal match `"x : int"` starts the description. -/
theorem extract_help_literal_match_witness :
    extractScan "x" (["x :int"] ++ "x : int" :: ["  d", ""]) false [] =
      extractScan "x" ["  d", ""] true [] := by
  have h := extract_help_literal_match "x" "x : int" ["x :int"] ["  d", ""] (by decide)
  have hc : strContains ("x" ++ " : ") "x : int" = true := by decide
  rw [h, if_pos hc]

/-- C1 (amended): for a docstring in which the pattern `arg ++ " : "`
first occurs on line `m`, followed by description lines `desc` (each
neither blank nor containing `" : "`) and then a terminating line, the
extractor returns the description lines each suffixed by a single space
and concatenated — so each continuation line keeps its own leading
indentation and the text ends with a space — with the leading whitespace
of the whole stripped and the text lower-cased; the final `rstrip(".")`
never removes a trailing period of the description because of that
trailing space. -/
theorem extract_help_amended (arg docstring m term : String)
    (before desc after : List String)
    (hsplit : pySplitlines docstring = before ++ m :: (desc ++ term :: after))
    (hbefore : ∀ l ∈ before, strContains (arg ++ " : ") l = false)
    (hm : strContains (arg ++ " : ") m = true)
    (hdesc : ∀ l ∈ desc, strContains " : " l = false ∧ pyStrip l ≠ "")
    (hterm : strContains " : " term = true ∨ pyStrip term = "") :
    extract_help_from_docstring arg docstring =
      .ok (pyRstripDots (pyLower (pyLstrip (String.join (descPieces desc))))) := by
  unfold extract_help_from_docstring
  rw [hsplit, extractScan_skip arg before (m :: (desc ++ term :: after)) [] hbefore]
  simp only [extractScan, hm, if_true]
  have := extractScan_collect arg term desc after [] hdesc hterm
  simpa using this

/-- Witness for C1's amended theorem at a concrete two-line description. -/
theorem extract_help_amended_witness :
    extract_help_from_docstring "x" "x : int\n  Path One\n  two.\n\nrest" =
      .ok "path one   two. " := by
  have h := extract_help_amended "x" "x : int\n  Path One\n  two.\n\nrest"
    "x : int" "" [] ["  Path One", "  two."] ["rest"]
    (by decide) (by decide) (by decide) (by decide) (Or.inr (by decide))
  rw [h]
  rfl

/-- Counterexample for C1 as stated: on the docstring
`"x : int\n  desc.\n\nrest"` the claim's description (single-space
joined, leading whitespace stripped, lower-cased, trailing period
removed) is `"desc"`, but the extractor returns `"desc. "` — the
description line's trailing period survives (and a trailing space is
appended) because every accumulated line is followed by a space, which
makes the final `rstrip(".")` a no-op. -/
theorem extract_help_claim_counterexample :
    extract_help_from_docstring "x" "x : int\n  desc.\n\nrest" ≠
      .ok (c1ClaimedHelp ["  desc."]) ∧
    extract_help_from_docstring "x" "x : int\n  desc.\n\nrest" = .ok "desc. " ∧
    c1ClaimedHelp ["  desc."] = "desc" := by
  refine ⟨by decide, by decide, by decide⟩

/-- C2: on a docstring whose last entry is the requested parameter's
description with no blank line after it, the extractor does not return
the description: the scan runs off the end of the input and the
`for`/`else` clause raises `KeyError` — whose message wrongly states
that the docstring does not include the parameter, contradicting the
code's own comment for that branch. -/
theorem extract_help_eof_keyerror :
    extract_help_from_docstring "x" "x : int\n  desc" =
      .error "The docstring does not include arg=x" := by decide

/-- C10: constructing `Build` without an `image_path` argument (so the
keyword-only default `None` is used) always fails with `AttributeError`
before construction completes, because the constructor unconditionally
calls `image_path.absolute()`; a path-valued `image_path` is a
precondition of construction. -/
theorem build_init_requires_image_path (cwd : List String)
    (base_image : Option String) (conda_env : Option PyPath) :
    Build.init cwd none base_image conda_env = .error .attributeError := rfl

/-- C6: a `Build` constructed from a relative `image_path` and a relative
`conda_env` stores both as absolute (cwd-anchored) paths, stores
`base_image` unchanged whatever it is, and stores `conda_env` as `None`
when it is not supplied. -/
theorem build_init_absolute_paths (cwd : List String) (ip ce : PyPath)
    (base_image : Option String)
    (hip : ip.anchored = false) (hce : ce.anchored = false) :
    Build.init cwd (some ip) base_image (some ce) =
      .ok ⟨⟨true, cwd ++ ip.parts⟩, base_image, some ⟨true, cwd ++ ce.parts⟩⟩ ∧
    Build.init cwd (some ip) base_image none =
      .ok ⟨⟨true, cwd ++ ip.parts⟩, base_image, none⟩ := by
  constructor <;> simp [Build.init, PyPath.absolute, hip, hce]

/-- Witness for C6 at concrete relative paths. -/
theorem build_init_absolute_paths_witness :
    Build.init ["home"] (some ⟨false, ["img.sif"]⟩) (some "ubuntu:22.04")
        (some ⟨false, ["env.yml"]⟩) =
      .ok ⟨⟨true, ["home", "img.sif"]⟩, some "ubuntu:22.04",
           some ⟨true, ["home", "env.yml"]⟩⟩ ∧
    Build.init ["home"] (some ⟨false, ["img.sif"]⟩) (some "ubuntu:22.04") none =
      .ok ⟨⟨true, ["home", "img.sif"]⟩, some "ubuntu:22.04", none⟩ :=
  build_init_absolute_paths ["home"] ⟨false, ["img.sif"]⟩ ⟨false, ["env.yml"]⟩
    (some "ubuntu:22.04") rfl rfl

/-- C4: with a conda environment supplied, `Build.execute()` performs, in
order: sandbox creation keyed by `base_image`, one `run_command` whose
argument contains (indeed equals) `conda env create -f <conda_env path>
-n conda_container_env`, two `add_to_env` calls — the bootstrap script
then the literal activation command — one cleanup, then one
`build_image(image_path)`; and whenever sandbox creation itself
succeeded, the sandbox is released on every exit path, whichever later
step raises. -/
theorem build_execute_conda_order (ip envp : PyPath) (base_image : Option String)
    (boot : String) :
    (Build.execute ⟨ip, base_image, some envp⟩ boot (fun _ => false)).trace =
      [.createSandbox base_image,
       .runCommand ("conda env create -f " ++ envp.as_posix ++ " -n " ++ condaEnvName),
       .addToEnv boot,
       .addToEnv ("conda activate " ++ condaEnvName),
       .cleanupUnusedFiles,
       .buildImage ip,
       .releaseSandbox] ∧
    strContains ("conda env create -f " ++ envp.as_posix ++ " -n conda_container_env")
      ("conda env create -f " ++ envp.as_posix ++ " -n " ++ condaEnvName) = true ∧
    (∀ raises : BuildStep → Bool, raises .createSandbox = false →
      Event.releaseSandbox ∈ (Build.execute ⟨ip, base_image, some envp⟩ boot raises).trace) := by
  refine ⟨by simp [Build.execute, Build.executeBody], ?_, ?_⟩
  · have : ("conda env create -f " ++ envp.as_posix ++ " -n " ++ condaEnvName) =
        ("conda env create -f " ++ envp.as_posix ++ " -n conda_container_env") := by
      simp [condaEnvName, String.append_assoc]
    rw [this]
    exact strContains_self _
  · intro raises hcr
    unfold Build.execute
    rw [hcr]
    simp

/-- Witness for C4: even when the final `build_image` step raises, the
sandbox is released. -/
theorem build_execute_conda_order_witness :
    Event.releaseSandbox ∈
      (Build.execute ⟨⟨true, ["img.sif"]⟩, some "ubuntu:22.04", some ⟨true, ["env.yml"]⟩⟩
        "boot.sh" (fun s => s == .buildImage)).trace :=
  (build_execute_conda_order ⟨true, ["img.sif"]⟩ ⟨true, ["env.yml"]⟩
    (some "ubuntu:22.04") "boot.sh").2.2 (fun s => s == .buildImage) (by decide)

/-- C5: with no conda environment, `Build.execute()` performs no
`run_command`, no `add_to_env` and no cleanup, while still creating the
sandbox exactly once and building the image exactly once. -/
theorem build_execute_no_conda_frame (ip : PyPath) (base_image : Option String)
    (boot : String) :
    Build.execute ⟨ip, base_image, none⟩ boot (fun _ => false) =
      ⟨[.createSandbox base_image, .buildImage ip, .releaseSandbox], none⟩ ∧
    ((Build.execute ⟨ip, base_image, none⟩ boot (fun _ => false)).trace.countP
      (fun e => match e with | .runCommand _ => true | .addToEnv _ => true
                             | .cleanupUnusedFiles => true | _ => false)) = 0 ∧
    ((Build.execute ⟨ip, base_image, none⟩ boot (fun _ => false)).trace.countP
      (fun e => match e with | .createSandbox _ => true | _ => false)) = 1 ∧
    ((Build.execute ⟨ip, base_image, none⟩ boot (fun _ => false)).trace.countP
      (fun e => match e with | .buildImage _ => true | _ => false)) = 1 := by
  refine ⟨by simp [Build.execute, Build.executeBody], ?_, ?_, ?_⟩ <;>
    simp [Build.execute, Build.executeBody, List.countP_cons]

/-- C7: `Info().execute()` prints exactly the single advertised line and
nothing else. -/
theorem info_execute_message (i : Info) :
    i.execute = ["Sorry, no information about your system is available at this time."] ∧
    i.execute.length = 1 :=
  ⟨rfl, rfl⟩

/-- C8: invoking the dispatcher with no subcommand token is not an error:
the `AttributeError` fallback substitutes a handler printing the
top-level help, so the outcome equals that of `--help`, both printing
the help text and exiting 0. -/
theorem dispatcher_no_subcommand_help (helpText : List String) :
    builderCLIMain helpText .noArgs = builderCLIMain helpText .helpFlag ∧
    builderCLIMain helpText .noArgs = ⟨helpText, 0⟩ ∧
    (builderCLIMain helpText .helpFlag).exitCode = 0 :=
  ⟨rfl, rfl, rfl⟩
